import Mathlib

/-!
Verification of the literary-portfolio CRUD backend.

The server (Express + better-sqlite3) keeps two tables, `content` and
`reviews`, and exposes six JSON endpoints.  We embed the store state and
each route handler as pure Lean functions, mirroring the source line by
line, including JavaScript truthiness for the presence checks (`!title`,
`rating || 5`, `pdfData || null`) and the strict-equality admin check
(`adminKey !== secret`).
-/

namespace JaxElric

/-- A row of the `content` table.  `created_at` is the store-assigned
insertion timestamp (modelled as a logical clock value). -/
structure Work where
  id : Nat
  title : String
  body : String
  type : String
  pdf_data : Option String
  created_at : Nat
  deriving Repr, DecidableEq

/-- A row of the `reviews` table. -/
structure Review where
  id : Nat
  name : String
  comment : String
  rating : Int
  created_at : Nat
  deriving Repr, DecidableEq

/-- The Content Store: both tables, the AUTOINCREMENT counters, and a
logical clock supplying `CURRENT_TIMESTAMP` defaults. -/
structure Store where
  content : List Work
  reviews : List Review
  nextContentId : Nat
  nextReviewId : Nat
  clock : Nat
  deriving Repr, DecidableEq

/-- The empty store right after `CREATE TABLE IF NOT EXISTS`:
AUTOINCREMENT ids start at 1. -/
def emptyStore : Store :=
  { content := [], reviews := [], nextContentId := 1, nextReviewId := 1, clock := 0 }

/-- JSON payload of a response. -/
inductive RespBody where
  | errorMsg (msg : String)
  | newId (id : Nat)
  | success
  | workList (ws : List Work)
  | reviewList (rs : List Review)
  deriving Repr, DecidableEq

/-- An HTTP response: status code plus JSON body. -/
structure Response where
  status : Nat
  body : RespBody
  deriving Repr, DecidableEq

/-- `process.env.ADMIN_SECRET || "jaxelricweb"`: the configured secret,
with the hard-coded fallback when the variable is unset or empty
(the empty string is falsy in JavaScript). -/
def configuredSecret (env : Option String) : String :=
  match env with
  | none => "jaxelricweb"
  | some s => if s = "" then "jaxelricweb" else s

/-- JavaScript truthiness test for an optional string field: `!x` holds
when the field is absent (`undefined`) or the empty string. -/
def strFalsy : Option String → Bool
  | none => true
  | some s => s == ""

/-- JavaScript truthiness test for an optional integer field: `!x` holds
when the field is absent or `0`. -/
def intFalsy : Option Int → Bool
  | none => true
  | some n => n == 0

/-- Request body of `POST /api/content`:
`{ title, body, type, pdfData, adminKey }`, every field optional at the
JSON level. -/
structure ContentBody where
  title : Option String
  body : Option String
  type : Option String
  pdfData : Option String
  adminKey : Option String
  deriving Repr, DecidableEq

/-- Request body of `POST /api/reviews`: `{ name, comment, rating }`. -/
structure ReviewBody where
  name : Option String
  comment : Option String
  rating : Option Int
  deriving Repr, DecidableEq

/-- Handler of `POST /api/content`: checks `adminKey !== secret` first,
then `!title || !body || !type`, then runs
`INSERT INTO content (title, body, type, pdf_data) VALUES (?, ?, ?, ?)`
with `pdfData || null` and answers `{ id: info.lastInsertRowid }`. -/
def postContent (env : Option String) (b : ContentBody) (s : Store) :
    Store × Response :=
  let secret := configuredSecret env
  if b.adminKey ≠ some secret then
    (s, ⟨401, .errorMsg "Unauthorized"⟩)
  else if strFalsy b.title || strFalsy b.body || strFalsy b.type then
    (s, ⟨400, .errorMsg "Missing fields"⟩)
  else
    let w : Work :=
      { id := s.nextContentId
        title := b.title.getD ""
        body := b.body.getD ""
        type := b.type.getD ""
        pdf_data := if strFalsy b.pdfData then none else b.pdfData
        created_at := s.clock }
    ({ s with content := s.content ++ [w],
              nextContentId := s.nextContentId + 1,
              clock := s.clock + 1 },
     ⟨200, .newId w.id⟩)

/-- Handler of `DELETE /api/content/:id`: checks the `x-admin-key` header
against the secret, runs `DELETE FROM content WHERE id = ?`, then answers
404 when `info.changes === 0` and `{ success: true }` otherwise. -/
def deleteContent (env : Option String) (adminKey : Option String)
    (id : Nat) (s : Store) : Store × Response :=
  let secret := configuredSecret env
  if adminKey ≠ some secret then
    (s, ⟨401, .errorMsg "Unauthorized"⟩)
  else
    let remaining := s.content.filter (fun w => w.id ≠ id)
    let changes := s.content.length - remaining.length
    let s' := { s with content := remaining }
    if changes = 0 then
      (s', ⟨404, .errorMsg "Content not found"⟩)
    else
      (s', ⟨200, .success⟩)

/-- Handler of `DELETE /api/reviews/:id`: no admin check at all; runs
`DELETE FROM reviews WHERE id = ?` and answers 404 when
`info.changes === 0`, `{ success: true }` otherwise. -/
def deleteReview (id : Nat) (s : Store) : Store × Response :=
  let remaining := s.reviews.filter (fun r => r.id ≠ id)
  let changes := s.reviews.length - remaining.length
  let s' := { s with reviews := remaining }
  if changes = 0 then
    (s', ⟨404, .errorMsg "Review not found"⟩)
  else
    (s', ⟨200, .success⟩)

/-- Handler of `POST /api/reviews`: checks `!name || !comment`, then runs
`INSERT INTO reviews (name, comment, rating) VALUES (?, ?, ?)` with
`rating || 5`. -/
def postReview (b : ReviewBody) (s : Store) : Store × Response :=
  if strFalsy b.name || strFalsy b.comment then
    (s, ⟨400, .errorMsg "Missing fields"⟩)
  else
    let r : Review :=
      { id := s.nextReviewId
        name := b.name.getD ""
        comment := b.comment.getD ""
        rating := if intFalsy b.rating then 5 else b.rating.getD 5
        created_at := s.clock }
    ({ s with reviews := s.reviews ++ [r],
              nextReviewId := s.nextReviewId + 1,
              clock := s.clock + 1 },
     ⟨200, .newId r.id⟩)

/-- The ordering used by `ORDER BY created_at DESC` on works:
most recent first. -/
def workRecency (a b : Work) : Prop := b.created_at ≤ a.created_at

/-- The ordering used by `ORDER BY created_at DESC` on reviews. -/
def reviewRecency (a b : Review) : Prop := b.created_at ≤ a.created_at

instance : DecidableRel workRecency := fun a b => Nat.decLe _ _

instance : DecidableRel reviewRecency := fun a b => Nat.decLe _ _

instance : IsTotal Work workRecency :=
  ⟨fun a b => Nat.le_total b.created_at a.created_at⟩

instance : IsTrans Work workRecency :=
  ⟨fun _ _ _ h h' => Nat.le_trans h' h⟩

instance : IsTotal Review reviewRecency :=
  ⟨fun a b => Nat.le_total b.created_at a.created_at⟩

instance : IsTrans Review reviewRecency :=
  ⟨fun _ _ _ h h' => Nat.le_trans h' h⟩

/-- Handler of `GET /api/content`:
`SELECT * FROM content ORDER BY created_at DESC`. -/
def getContent (s : Store) : Response :=
  ⟨200, .workList (List.insertionSort workRecency s.content)⟩

/-- Handler of `GET /api/reviews`:
`SELECT * FROM reviews ORDER BY created_at DESC`. -/
def getReviews (s : Store) : Response :=
  ⟨200, .reviewList (List.insertionSort reviewRecency s.reviews)⟩

/-- One incoming API request, covering the six routes the server mounts. -/
inductive Request where
  | listContent
  | createContent (b : ContentBody)
  | removeContent (adminKey : Option String) (id : Nat)
  | listReviews
  | createReview (b : ReviewBody)
  | removeReview (id : Nat)
  deriving Repr, DecidableEq

/-- Dispatch one request against the store, as the router does. -/
def step (env : Option String) (s : Store) : Request → Store × Response
  | .listContent => (s, getContent s)
  | .createContent b => postContent env b s
  | .removeContent k id => deleteContent env k id s
  | .listReviews => (s, getReviews s)
  | .createReview b => postReview b s
  | .removeReview id => deleteReview id s

/-- Run a sequence of requests, threading the store. -/
def run (env : Option String) (s : Store) : List Request → Store
  | [] => s
  | r :: rs => run env (step env s r).1 rs

/-! ### Sample data used by the witnesses -/

/-- A sample stored work. -/
def sampleWork : Work :=
  { id := 1, title := "Dawn", body := "First light.", type := "poetry",
    pdf_data := none, created_at := 0 }

/-- A store holding exactly `sampleWork`. -/
def storeWithWork : Store :=
  { content := [sampleWork], reviews := [], nextContentId := 2,
    nextReviewId := 1, clock := 1 }

/-- A sample stored review. -/
def sampleReview : Review :=
  { id := 1, name := "Ann", comment := "Lovely.", rating := 5, created_at := 0 }

/-- A store holding exactly `sampleReview`. -/
def storeWithReview : Store :=
  { content := [], reviews := [sampleReview], nextContentId := 1,
    nextReviewId := 2, clock := 1 }

/-! ### Helper lemmas -/

/-- `DELETE … WHERE id = ?` on a table of distinct ids removes exactly the
row carrying that id: filtering away `a.id` equals `List.erase a`. -/
theorem filter_key_ne_eq_erase {α : Type} [DecidableEq α] (key : α → Nat)
    {l : List α} {a : α} (hnd : (l.map key).Nodup) (ha : a ∈ l) :
    l.filter (fun x => key x ≠ key a) = l.erase a := by
  induction l with
  | nil => cases ha
  | cons b l ih =>
    rw [List.map_cons, List.nodup_cons] at hnd
    rcases List.mem_cons.mp ha with rfl | ha
    · rw [List.erase_cons_head]
      have h1 : l.filter (fun x => key x ≠ key a) = l :=
        List.filter_eq_self.mpr (fun x hx => by
          simp only [ne_eq, decide_eq_true_eq]
          exact fun hkey => hnd.1 (hkey ▸ List.mem_map_of_mem key hx))
      rw [List.filter_cons, if_neg (by simp), h1]
    · have hne : key b ≠ key a :=
        fun h => hnd.1 (h ▸ List.mem_map_of_mem key ha)
      have hba : ¬((b == a) = true) := by
        simp only [beq_iff_eq]
        exact fun h => hne (congrArg key h)
      rw [List.filter_cons, List.erase_cons_tail hba,
        if_pos (by simp [hne]), ih hnd.2 ha]

/-- A row that is present makes the filtered table strictly shorter, so
`info.changes` is nonzero. -/
theorem filter_key_ne_length_lt {α : Type} (key : α → Nat)
    {l : List α} {a : α} (ha : a ∈ l) :
    (l.filter (fun x => key x ≠ key a)).length < l.length := by
  apply List.length_filter_lt_length_iff_exists.mpr
  exact ⟨a, ha, by simp⟩

/-! ### Claim theorems -/

/-- C2: creating or deleting a Work with an admin secret that differs from
the configured value returns 401 Unauthorized and leaves the content table
unchanged (the whole store is returned untouched, so no row is inserted or
removed). -/
theorem C2_wrong_secret_unchanged (env : Option String) (b : ContentBody)
    (k : Option String) (id : Nat) (s : Store)
    (hb : b.adminKey ≠ some (configuredSecret env))
    (hk : k ≠ some (configuredSecret env)) :
    postContent env b s = (s, ⟨401, .errorMsg "Unauthorized"⟩) ∧
    deleteContent env k id s = (s, ⟨401, .errorMsg "Unauthorized"⟩) := by
  constructor
  · simp [postContent, hb]
  · simp [deleteContent, hk]

/-- Witness for C2 at a concrete wrong body key and a missing header. -/
theorem C2_wrong_secret_unchanged_witness :
    (some "wrong" ≠ some (configuredSecret none)) ∧
    ((none : Option String) ≠ some (configuredSecret none)) ∧
    postContent none ⟨some "Dawn", some "x", some "poetry", none, some "wrong"⟩
        storeWithWork =
      (storeWithWork, ⟨401, .errorMsg "Unauthorized"⟩) ∧
    deleteContent none none 1 storeWithWork =
      (storeWithWork, ⟨401, .errorMsg "Unauthorized"⟩) := by
  have h := C2_wrong_secret_unchanged none
    ⟨some "Dawn", some "x", some "poetry", none, some "wrong"⟩
    none 1 storeWithWork (by decide) (by decide)
  exact ⟨by decide, by decide, h.1, h.2⟩

/-- C4: a create-work request carrying the correct admin secret but with a
missing or empty title, body or type is answered 400 with a validation
error and the store is unchanged. -/
theorem C4_create_missing_fields (env : Option String) (b : ContentBody)
    (s : Store)
    (hk : b.adminKey = some (configuredSecret env))
    (hmiss : (strFalsy b.title || strFalsy b.body || strFalsy b.type) = true) :
    postContent env b s = (s, ⟨400, .errorMsg "Missing fields"⟩) := by
  simp [postContent, hk, hmiss]

/-- Witness for C4: correct secret, missing title. -/
theorem C4_create_missing_fields_witness :
    ((⟨none, some "x", some "poetry", none, some "jaxelricweb"⟩ :
        ContentBody).adminKey = some (configuredSecret none)) ∧
    (strFalsy (none : Option String) || strFalsy (some "x") ||
      strFalsy (some "poetry")) = true ∧
    postContent none ⟨none, some "x", some "poetry", none, some "jaxelricweb"⟩
        storeWithWork =
      (storeWithWork, ⟨400, .errorMsg "Missing fields"⟩) :=
  ⟨by decide, by decide,
   C4_create_missing_fields none
     ⟨none, some "x", some "poetry", none, some "jaxelricweb"⟩
     storeWithWork (by decide) (by decide)⟩

/-- C7: a review-creation request with non-empty name and comment but no
rating field inserts exactly one row whose rating is the default 5. -/
theorem C7_default_rating (b : ReviewBody) (s : Store)
    (hn : strFalsy b.name = false) (hc : strFalsy b.comment = false)
    (hr : b.rating = none) :
    (postReview b s).1.reviews =
      s.reviews ++ [{ id := s.nextReviewId, name := b.name.getD "",
                      comment := b.comment.getD "", rating := 5,
                      created_at := s.clock }] ∧
    (postReview b s).2 = ⟨200, .newId s.nextReviewId⟩ := by
  constructor <;> simp [postReview, hn, hc, hr, intFalsy]

/-- Witness for C7: Ann posts a comment with no rating. -/
theorem C7_default_rating_witness :
    strFalsy (some "Ann") = false ∧ strFalsy (some "Lovely.") = false ∧
    ((⟨some "Ann", some "Lovely.", none⟩ : ReviewBody).rating = none) ∧
    (postReview ⟨some "Ann", some "Lovely.", none⟩ emptyStore).1.reviews =
      emptyStore.reviews ++
        [{ id := emptyStore.nextReviewId, name := (some "Ann").getD "",
           comment := (some "Lovely.").getD "", rating := 5,
           created_at := emptyStore.clock }] ∧
    (postReview ⟨some "Ann", some "Lovely.", none⟩ emptyStore).2 =
      ⟨200, .newId emptyStore.nextReviewId⟩ :=
  ⟨by decide, by decide, rfl,
   (C7_default_rating ⟨some "Ann", some "Lovely.", none⟩ emptyStore
     (by decide) (by decide) rfl).1,
   (C7_default_rating ⟨some "Ann", some "Lovely.", none⟩ emptyStore
     (by decide) (by decide) rfl).2⟩

/-- C10: the admin-secret check on create-work precedes field validation:
the response is 401 exactly when the supplied key mismatches (regardless of
the fields), and 400 exactly when the key matches and a required field is
missing or empty. -/
theorem C10_auth_precedes_validation (env : Option String) (b : ContentBody)
    (s : Store) :
    ((postContent env b s).2.status = 401 ↔
       b.adminKey ≠ some (configuredSecret env)) ∧
    ((postContent env b s).2.status = 400 ↔
       (b.adminKey = some (configuredSecret env) ∧
        (strFalsy b.title || strFalsy b.body || strFalsy b.type) = true)) := by
  by_cases hk : b.adminKey = some (configuredSecret env)
  · by_cases hm : (strFalsy b.title || strFalsy b.body || strFalsy b.type) = true
    · simp [postContent, hk, hm]
    · simp [postContent, hk, hm]
  · simp [postContent, hk]

/-- C3 counterexample: a caller-supplied rating of 0 is NOT stored as
supplied.  `rating || 5` treats 0 as falsy, so the stored rating is 5. -/
theorem C3_zero_rating_counterexample :
    (postReview ⟨some "Ann", some "Lovely.", some 0⟩ emptyStore).1.reviews.map
        Review.rating = [5] ∧
    (5 : Int) ≠ 0 := by
  constructor
  · rfl
  · decide

/-- C3 amended: with name and comment present, a caller-supplied NONZERO
rating is stored exactly as supplied — in particular negative values and
values greater than 5 — while a supplied 0 falls to the default 5. -/
theorem C3_nonzero_rating_stored (b : ReviewBody) (s : Store) (v : Int)
    (hn : strFalsy b.name = false) (hc : strFalsy b.comment = false)
    (hv : b.rating = some v) (hv0 : v ≠ 0) :
    (postReview b s).1.reviews =
      s.reviews ++ [{ id := s.nextReviewId, name := b.name.getD "",
                      comment := b.comment.getD "", rating := v,
                      created_at := s.clock }] := by
  simp [postReview, hn, hc, hv, intFalsy, hv0]

/-- Witness for the amended C3 at rating -3 (negative) and 99 (above 5). -/
theorem C3_nonzero_rating_stored_witness :
    (strFalsy (some "Ann") = false ∧ strFalsy (some "Lovely.") = false ∧
     ((⟨some "Ann", some "Lovely.", some (-3)⟩ : ReviewBody).rating = some (-3)) ∧
     (-3 : Int) ≠ 0 ∧
     (postReview ⟨some "Ann", some "Lovely.", some (-3)⟩ emptyStore).1.reviews =
       emptyStore.reviews ++
         [{ id := emptyStore.nextReviewId, name := (some "Ann").getD "",
            comment := (some "Lovely.").getD "", rating := -3,
            created_at := emptyStore.clock }]) ∧
    ((99 : Int) ≠ 0 ∧
     (postReview ⟨some "Ann", some "Lovely.", some 99⟩ emptyStore).1.reviews =
       emptyStore.reviews ++
         [{ id := emptyStore.nextReviewId, name := (some "Ann").getD "",
            comment := (some "Lovely.").getD "", rating := 99,
            created_at := emptyStore.clock }]) :=
  ⟨⟨by decide, by decide, rfl, by decide,
    C3_nonzero_rating_stored ⟨some "Ann", some "Lovely.", some (-3)⟩
      emptyStore (-3) (by decide) (by decide) rfl (by decide)⟩,
   ⟨by decide,
    C3_nonzero_rating_stored ⟨some "Ann", some "Lovely.", some 99⟩
      emptyStore 99 (by decide) (by decide) rfl (by decide)⟩⟩

/-- C5: a create-work request with the correct admin secret and non-empty
title, body and type appends exactly one new row carrying the supplied
values (and the optional attachment, nulled when falsy) under the
store-assigned id, and answers 200 with exactly that id. -/
theorem C5_create_work (env : Option String) (b : ContentBody) (s : Store)
    (hk : b.adminKey = some (configuredSecret env))
    (ht : strFalsy b.title = false) (hb : strFalsy b.body = false)
    (hty : strFalsy b.type = false) :
    postContent env b s =
      ({ s with
          content := s.content ++
            [{ id := s.nextContentId, title := b.title.getD "",
               body := b.body.getD "", type := b.type.getD "",
               pdf_data := if strFalsy b.pdfData then none else b.pdfData,
               created_at := s.clock }],
          nextContentId := s.nextContentId + 1,
          clock := s.clock + 1 },
       ⟨200, .newId s.nextContentId⟩) ∧
    some (b.title.getD "") = b.title ∧
    some (b.body.getD "") = b.body ∧
    some (b.type.getD "") = b.type := by
  refine ⟨by simp [postContent, hk, ht, hb, hty], ?_, ?_, ?_⟩
  · cases hx : b.title with
    | none => rw [hx] at ht; simp [strFalsy] at ht
    | some t => rfl
  · cases hx : b.body with
    | none => rw [hx] at hb; simp [strFalsy] at hb
    | some t => rfl
  · cases hx : b.type with
    | none => rw [hx] at hty; simp [strFalsy] at hty
    | some t => rfl

/-- Witness for C5: creating "Dawn" in the empty store yields id 1. -/
theorem C5_create_work_witness :
    ((⟨some "Dawn", some "First light.", some "poetry", none,
        some "jaxelricweb"⟩ : ContentBody).adminKey =
      some (configuredSecret none)) ∧
    strFalsy (some "Dawn") = false ∧
    strFalsy (some "First light.") = false ∧
    strFalsy (some "poetry") = false ∧
    postContent none
        ⟨some "Dawn", some "First light.", some "poetry", none,
          some "jaxelricweb"⟩ emptyStore =
      ({ emptyStore with
          content := emptyStore.content ++
            [{ id := emptyStore.nextContentId,
               title := (some "Dawn").getD "",
               body := (some "First light.").getD "",
               type := (some "poetry").getD "",
               pdf_data := if strFalsy (none : Option String) then none
                           else (none : Option String),
               created_at := emptyStore.clock }],
          nextContentId := emptyStore.nextContentId + 1,
          clock := emptyStore.clock + 1 },
       ⟨200, .newId emptyStore.nextContentId⟩) :=
  ⟨by decide, by decide, by decide, by decide,
   (C5_create_work none
     ⟨some "Dawn", some "First light.", some "poetry", none,
       some "jaxelricweb"⟩ emptyStore
     (by decide) (by decide) (by decide) (by decide)).1⟩

/-- C1: deleting a work with the correct admin secret answers 404 and
leaves the store untouched when no row has the id, and answers 200
`{success:true}` having removed exactly the row with that id when one
exists (ids are unique, being the table's primary key). -/
theorem C1_delete_work (env : Option String) (id : Nat) (s : Store)
    (hnd : (s.content.map Work.id).Nodup) :
    ((∀ w ∈ s.content, w.id ≠ id) →
       deleteContent env (some (configuredSecret env)) id s =
         (s, ⟨404, .errorMsg "Content not found"⟩)) ∧
    (∀ w ∈ s.content, w.id = id →
       deleteContent env (some (configuredSecret env)) id s =
         ({ s with content := s.content.erase w }, ⟨200, .success⟩)) := by
  constructor
  · intro hno
    have hrem : s.content.filter (fun w => w.id ≠ id) = s.content :=
      List.filter_eq_self.mpr (fun w hw => by
        simp only [ne_eq, decide_eq_true_eq]
        exact hno w hw)
    simp only [ne_eq, decide_not] at hrem
    simp [deleteContent, hrem]
  · intro w hw hid
    subst hid
    have hrem := filter_key_ne_eq_erase Work.id hnd hw
    have hlen : s.content.length - (s.content.erase w).length = 1 := by
      rw [List.length_erase_of_mem hw]
      exact Nat.sub_sub_self (List.length_pos_of_mem hw)
    simp only [ne_eq, decide_not] at hrem
    simp [deleteContent, hrem, hlen]

/-- Witness for C1: deleting id 1 removes the sample work; deleting id 7
from the same store is a 404 that changes nothing. -/
theorem C1_delete_work_witness :
    ((storeWithWork.content.map Work.id).Nodup) ∧
    deleteContent none (some (configuredSecret none)) 1 storeWithWork =
      ({ storeWithWork with content := storeWithWork.content.erase sampleWork },
       ⟨200, .success⟩) ∧
    deleteContent none (some (configuredSecret none)) 7 storeWithWork =
      (storeWithWork, ⟨404, .errorMsg "Content not found"⟩) :=
  ⟨by decide,
   (C1_delete_work none 1 storeWithWork (by decide)).2 sampleWork
     (by simp [storeWithWork]) rfl,
   (C1_delete_work none 7 storeWithWork (by decide)).1
     (by intro w hw; simp [storeWithWork] at hw; simp [hw, sampleWork])⟩

/-- C8: deleting a review requires no secret or header: it answers 200
`{success:true}` whenever a row with that id exists, removing exactly it,
and 404 with an error when none does. -/
theorem C8_delete_review (id : Nat) (s : Store)
    (hnd : (s.reviews.map Review.id).Nodup) :
    ((∀ r ∈ s.reviews, r.id ≠ id) →
       deleteReview id s = (s, ⟨404, .errorMsg "Review not found"⟩)) ∧
    (∀ r ∈ s.reviews, r.id = id →
       deleteReview id s =
         ({ s with reviews := s.reviews.erase r }, ⟨200, .success⟩)) := by
  constructor
  · intro hno
    have hrem : s.reviews.filter (fun r => r.id ≠ id) = s.reviews :=
      List.filter_eq_self.mpr (fun r hr => by
        simp only [ne_eq, decide_eq_true_eq]
        exact hno r hr)
    simp only [ne_eq, decide_not] at hrem
    simp [deleteReview, hrem]
  · intro r hr hid
    subst hid
    have hrem := filter_key_ne_eq_erase Review.id hnd hr
    have hlen : s.reviews.length - (s.reviews.erase r).length = 1 := by
      rw [List.length_erase_of_mem hr]
      exact Nat.sub_sub_self (List.length_pos_of_mem hr)
    simp only [ne_eq, decide_not] at hrem
    simp [deleteReview, hrem, hlen]

/-- Witness for C8: deleting review id 1 succeeds with no secret anywhere
in the request; deleting id 7 is a 404 that changes nothing. -/
theorem C8_delete_review_witness :
    ((storeWithReview.reviews.map Review.id).Nodup) ∧
    deleteReview 1 storeWithReview =
      ({ storeWithReview with
          reviews := storeWithReview.reviews.erase sampleReview },
       ⟨200, .success⟩) ∧
    deleteReview 7 storeWithReview =
      (storeWithReview, ⟨404, .errorMsg "Review not found"⟩) :=
  ⟨by decide,
   (C8_delete_review 1 storeWithReview (by decide)).2 sampleReview
     (by simp [storeWithReview]) rfl,
   (C8_delete_review 7 storeWithReview (by decide)).1
     (by intro r hr; simp [storeWithReview] at hr; simp [hr, sampleReview])⟩

/-- C6: both list endpoints answer 200 with all rows of their table,
ordered by `created_at` descending, and the empty store yields the empty
array as a non-error result. -/
theorem C6_lists_sorted_desc (s : Store) :
    (getContent s).status = 200 ∧ (getReviews s).status = 200 ∧
    (getContent s).body =
      .workList (List.insertionSort workRecency s.content) ∧
    (List.insertionSort workRecency s.content).Perm s.content ∧
    (List.insertionSort workRecency s.content).Sorted workRecency ∧
    (getReviews s).body =
      .reviewList (List.insertionSort reviewRecency s.reviews) ∧
    (List.insertionSort reviewRecency s.reviews).Perm s.reviews ∧
    (List.insertionSort reviewRecency s.reviews).Sorted reviewRecency ∧
    (getContent emptyStore).body = .workList [] ∧
    (getReviews emptyStore).body = .reviewList [] :=
  ⟨rfl, rfl, rfl, List.perm_insertionSort _ _,
   List.sorted_insertionSort _ _, rfl, List.perm_insertionSort _ _,
   List.sorted_insertionSort _ _, rfl, rfl⟩

/-- A non-falsy optional string holds a non-empty string. -/
theorem getD_ne_empty_of_not_falsy {o : Option String}
    (h : strFalsy o = false) : o.getD "" ≠ "" := by
  cases o with
  | none => simp [strFalsy] at h
  | some t => simpa [strFalsy] using h

/-- The row-shape invariant of the store: every work has a non-empty title
and body, every review a non-empty name and comment. -/
def StoreInv (s : Store) : Prop :=
  (∀ w ∈ s.content, w.title ≠ "" ∧ w.body ≠ "") ∧
  (∀ r ∈ s.reviews, r.name ≠ "" ∧ r.comment ≠ "")

/-- The store returned by the delete-work handler: untouched on a wrong
key, otherwise the table filtered at the id. -/
theorem deleteContent_fst (env : Option String) (k : Option String)
    (id : Nat) (s : Store) :
    (deleteContent env k id s).1 =
      if k = some (configuredSecret env) then
        { s with content := s.content.filter (fun w => w.id ≠ id) }
      else s := by
  by_cases h1 : k = some (configuredSecret env)
  · simp [deleteContent, h1, apply_ite Prod.fst]
  · simp [deleteContent, h1]

/-- The store returned by the delete-review handler: the table filtered at
the id. -/
theorem deleteReview_fst (id : Nat) (s : Store) :
    (deleteReview id s).1 =
      { s with reviews := s.reviews.filter (fun r => r.id ≠ id) } := by
  simp [deleteReview, apply_ite Prod.fst]

/-- Every single request preserves the row-shape invariant. -/
theorem step_preserves_inv (env : Option String) (s : Store) (r : Request)
    (h : StoreInv s) : StoreInv (step env s r).1 := by
  cases r with
  | listContent => exact h
  | listReviews => exact h
  | createContent b =>
    show StoreInv (postContent env b s).1
    by_cases h1 : b.adminKey = some (configuredSecret env)
    · by_cases h2 : (strFalsy b.title || strFalsy b.body ||
          strFalsy b.type) = true
      · have hs : (postContent env b s).1 = s := by
          simp [postContent, h1, h2]
        rw [hs]; exact h
      · simp only [Bool.or_eq_true, not_or, Bool.not_eq_true] at h2
        have hs : (postContent env b s).1 =
            { s with
                content := s.content ++
                  [{ id := s.nextContentId, title := b.title.getD "",
                     body := b.body.getD "", type := b.type.getD "",
                     pdf_data := if strFalsy b.pdfData then none
                                 else b.pdfData,
                     created_at := s.clock }],
                nextContentId := s.nextContentId + 1,
                clock := s.clock + 1 } := by
          simp [postContent, h1, h2.1.1, h2.1.2, h2.2]
        rw [hs]
        refine ⟨fun w hw => ?_, h.2⟩
        rcases List.mem_append.mp hw with hw | hw
        · exact h.1 w hw
        · rw [List.mem_singleton] at hw
          subst hw
          exact ⟨getD_ne_empty_of_not_falsy h2.1.1,
            getD_ne_empty_of_not_falsy h2.1.2⟩
    · have hs : (postContent env b s).1 = s := by simp [postContent, h1]
      rw [hs]; exact h
  | removeContent k id =>
    show StoreInv (deleteContent env k id s).1
    rw [deleteContent_fst]
    split
    · exact ⟨fun w hw => h.1 w (List.mem_of_mem_filter hw), h.2⟩
    · exact h
  | createReview b =>
    show StoreInv (postReview b s).1
    by_cases h1 : (strFalsy b.name || strFalsy b.comment) = true
    · have hs : (postReview b s).1 = s := by simp [postReview, h1]
      rw [hs]; exact h
    · simp only [Bool.or_eq_true, not_or, Bool.not_eq_true] at h1
      have hs : (postReview b s).1 =
          { s with
              reviews := s.reviews ++
                [{ id := s.nextReviewId, name := b.name.getD "",
                   comment := b.comment.getD "",
                   rating := if intFalsy b.rating then 5
                             else b.rating.getD 5,
                   created_at := s.clock }],
              nextReviewId := s.nextReviewId + 1,
              clock := s.clock + 1 } := by
        simp [postReview, h1.1, h1.2]
      rw [hs]
      refine ⟨h.1, fun r hr => ?_⟩
      rcases List.mem_append.mp hr with hr | hr
      · exact h.2 r hr
      · rw [List.mem_singleton] at hr
        subst hr
        exact ⟨getD_ne_empty_of_not_falsy h1.1,
          getD_ne_empty_of_not_falsy h1.2⟩
  | removeReview id =>
    show StoreInv (deleteReview id s).1
    rw [deleteReview_fst]
    exact ⟨h.1, fun r hr => h.2 r (List.mem_of_mem_filter hr)⟩

/-- Running any request sequence preserves the row-shape invariant. -/
theorem run_preserves_inv (env : Option String) (reqs : List Request)
    (s : Store) (h : StoreInv s) : StoreInv (run env s reqs) := by
  induction reqs generalizing s with
  | nil => exact h
  | cons r rs ih => exact ih _ (step_preserves_inv env s r h)

/-- C9: starting from the empty store, no sequence of API requests can
produce a work row with empty title or body, nor a review row with empty
name or comment — the create endpoints are the only insertion paths and
they validate these fields. -/
theorem C9_nonempty_rows_invariant (env : Option String)
    (reqs : List Request) :
    (∀ w ∈ (run env emptyStore reqs).content, w.title ≠ "" ∧ w.body ≠ "") ∧
    (∀ r ∈ (run env emptyStore reqs).reviews, r.name ≠ "" ∧ r.comment ≠ "") :=
  run_preserves_inv env reqs emptyStore
    ⟨fun w hw => absurd hw (List.not_mem_nil w),
     fun r hr => absurd hr (List.not_mem_nil r)⟩

end JaxElric
